import Mathlib

/-!
Shallow embedding of `src/webpack.config.js`: a build-configuration
resolver that, given a mode flag and the process environment, assembles a
webpack configuration object (entry, output, module rules, plugins,
optimization, devServer, devtool).

Module-load-time inputs (the `.env` environment variables `WDS_HOST` and
`WDS_PORT`, the `__dirname` value, and the result of the synchronous
`glob.sync` scan feeding the Purgecss plugin) are gathered in an explicit
`Ctx` record, so the assembly itself is a pure function, exactly as the
source computes it.
-/

namespace WebpackConfig

/-- A loader name appearing in a `use` entry of a module rule.
`miniCssExtractPluginLoader` stands for `MiniCssExtractPlugin.loader`,
the CSS-extraction loader; the others are the npm package name strings. -/
inductive Loader where
  | miniCssExtractPluginLoader
  | styleLoader
  | cssLoader
  | postcssLoader
  | sassLoader
  | babelLoader
  deriving DecidableEq

/-- The `options` object attached to a loader entry. The source uses three
shapes: babel presets, a `sourceMap` boolean, and the postcss plugins
function `() => [Autoprefixer()]` (which carries no source-map option). -/
inductive LoaderOptions where
  | babelOptions (presets : List String)
  | sourceMapOptions (sourceMap : Bool)
  | postcssOptions
  deriving DecidableEq

/-- One step of a rule's `use` chain: a loader plus its options. -/
structure LoaderEntry where
  loader : Loader
  options : LoaderOptions
  deriving DecidableEq

/-- The `test` matcher of a rule: a single regexp or an array of regexps,
kept as their pattern source strings. -/
inductive RuleTest where
  | single (pattern : String)
  | multi (patterns : List String)
  deriving DecidableEq

/-- A module rule: matcher, exclusion patterns, and the loader chain. -/
structure Rule where
  test : RuleTest
  exclude : List String
  use : List LoaderEntry
  deriving DecidableEq

/-- The `module` block of the configuration: a list of rules. -/
structure WebpackModule where
  rules : List Rule
  deriving DecidableEq

/-- A plugin instance constructed in the config file, with the options the
source passes to its constructor. -/
inductive Plugin where
  | htmlWebpackPlugin (title template : String)
  | miniCssExtractPlugin (filename : String)
  | purgecssPlugin (paths : List String)
  | optimizeCSSAssetsPlugin
  deriving DecidableEq

/-- The `optimization` block: either the literal empty object `{}` or an
object carrying a `minimizer` list. -/
inductive Optimization where
  | emptyObj
  | withMinimizer (minimizer : List Plugin)
  deriving DecidableEq

/-- The populated dev-server settings object. JavaScript `undefined` for
`host` / `port` is `none`. The source field `open` is called `openFlag`
here because `open` is reserved in Lean. -/
structure DevServerConfig where
  host : Option String
  port : Option String
  openFlag : Bool
  historyApiFallback : Bool
  overlay : Bool
  contentBase : String
  deriving DecidableEq

/-- The `devServer` block of the configuration: the literal empty object
`{}` or a populated settings object. -/
inductive DevServer where
  | emptyObj
  | config (c : DevServerConfig)
  deriving DecidableEq

/-- The `devtool` value: the source yields either the boolean `false` or a
string option name. -/
inductive Devtool where
  | boolVal (b : Bool)
  | strVal (s : String)
  deriving DecidableEq

/-- The `output` block: file name pattern and directory path. -/
structure Output where
  filename : String
  path : String
  deriving DecidableEq

/-- The full configuration object returned by the exported function. -/
structure Config where
  mode : String
  entry : List (String × String)
  output : Output
  plugins : List Plugin
  module : WebpackModule
  optimization : Optimization
  devServer : DevServer
  devtool : Devtool
  deriving DecidableEq

/-- Module-load-time inputs of the config file: the two dev-server
environment variables (absent = `none`), the `__dirname` value, and the
path list produced by the synchronous `glob.sync` scan for Purgecss. -/
structure Ctx where
  wdsHost : Option String
  wdsPort : Option String
  dirname : String
  globPaths : List String
  deriving DecidableEq

/-- `join` from `path`, as used in the source (joining a directory with a
single relative segment). -/
def pathJoin (a b : String) : String := a ++ "/" ++ b

/-- `const isProduction = env => env === 'production'`. -/
def isProduction (env : String) : Bool := env == "production"

/-- `const entry = { index: './src/index.js' }`. -/
def entry : List (String × String) := [("index", "./src/index.js")]

/-- `const output = { filename: 'bundle.js', path: join(__dirname, 'dist') }`. -/
def output (ctx : Ctx) : Output :=
  { filename := "bundle.js", path := pathJoin ctx.dirname "dist" }

/-- `const webpackModule = env => ({ rules: [...] })`: the babel rule for
JS/JSX/MJS files and the CSS/SASS/SCSS rule whose chain head and
source-map flags depend on the mode. -/
def webpackModule (env : String) : WebpackModule :=
  { rules := [
      { test := RuleTest.single "\\.m?jsx?$",
        exclude := ["(node_modules)"],
        use := [
          { loader := Loader.babelLoader,
            options := LoaderOptions.babelOptions ["@babel/preset-env"] }] },
      { test := RuleTest.multi ["\\.s?css$", "\\.sass$"],
        exclude := ["node_modules"],
        use := [
          { loader := if isProduction env then Loader.miniCssExtractPluginLoader
                      else Loader.styleLoader,
            options := LoaderOptions.sourceMapOptions
              (if isProduction env then false else true) },
          { loader := Loader.cssLoader,
            options := LoaderOptions.sourceMapOptions
              (if isProduction env then false else true) },
          { loader := Loader.postcssLoader,
            options := LoaderOptions.postcssOptions },
          { loader := Loader.sassLoader,
            options := LoaderOptions.sourceMapOptions
              (if isProduction env then false else true) }] }] }

/-- `const plugins = [ new HtmlWebpackPlugin(...), new MiniCssExtractPlugin(...),
new PurgecssPlugin(...) ]`; the Purgecss path list comes from the glob scan. -/
def plugins (ctx : Ctx) : List Plugin :=
  [Plugin.htmlWebpackPlugin "Webpack Demo" "src/templates/index.html",
   Plugin.miniCssExtractPlugin "[name].css",
   Plugin.purgecssPlugin ctx.globPaths]

/-- `const optimize = { minimizer: [new OptimizeCSSAssetsPlugin({})] }`. -/
def optimize : Optimization :=
  Optimization.withMinimizer [Plugin.optimizeCSSAssetsPlugin]

/-- `const devServer = { host: WDS_HOST, port: WDS_PORT, open: false,
historyApiFallback: true, overlay: true, contentBase: join(__dirname, 'dist') }`. -/
def devServer (ctx : Ctx) : DevServerConfig :=
  { host := ctx.wdsHost,
    port := ctx.wdsPort,
    openFlag := false,
    historyApiFallback := true,
    overlay := true,
    contentBase := pathJoin ctx.dirname "dist" }

/-- `module.exports = (env, argv) => ({ ... })`: the exported resolver.
`argv` is accepted (at any type) and never consulted, as in the source. -/
def moduleExports (ctx : Ctx) (env : String) {A : Type} (argv : A) : Config :=
  { mode := env,
    entry := entry,
    output := output ctx,
    plugins := plugins ctx,
    module := webpackModule env,
    optimization := if isProduction env then optimize else Optimization.emptyObj,
    devServer := if isProduction env then DevServer.emptyObj
                 else DevServer.config (devServer ctx),
    devtool := if isProduction env then Devtool.boolVal false
               else Devtool.strVal "cheal-module-eval-source-map" }

/-! Accessors used to state the properties. -/

/-- The minimizer list of an `optimization` block (`[]` when the block is
the empty object, which has no `minimizer` key). -/
def Optimization.minimizerEntries : Optimization → List Plugin
  | Optimization.emptyObj => []
  | Optimization.withMinimizer ms => ms

/-- Whether an `optimization` block is the literal empty object. -/
def Optimization.isEmptyObj : Optimization → Bool
  | Optimization.emptyObj => true
  | Optimization.withMinimizer _ => false

/-- Whether a `devServer` block is the literal empty object. -/
def DevServer.isEmptyObj : DevServer → Bool
  | DevServer.emptyObj => true
  | DevServer.config _ => false

/-- The `historyApiFallback` field of a `devServer` block, when present. -/
def DevServer.historyApiFallbackValue : DevServer → Option Bool
  | DevServer.emptyObj => none
  | DevServer.config c => some c.historyApiFallback

/-- The `host` field of a `devServer` block, when the block is populated
(the inner `Option` is the possibly-undefined value itself). -/
def DevServer.hostValue : DevServer → Option (Option String)
  | DevServer.emptyObj => none
  | DevServer.config c => some c.host

/-- The `port` field of a `devServer` block, when the block is populated. -/
def DevServer.portValue : DevServer → Option (Option String)
  | DevServer.emptyObj => none
  | DevServer.config c => some c.port

/-- The `open` field of a `devServer` block, when the block is populated. -/
def DevServer.openValue : DevServer → Option Bool
  | DevServer.emptyObj => none
  | DevServer.config c => some c.openFlag

/-- The CSS/SASS/SCSS rule's loader chain of a configuration (the second
rule of the module block). -/
def Config.cssLoaderChain (cfg : Config) : List LoaderEntry :=
  match cfg.module.rules with
  | [_, cssRule] => cssRule.use
  | _ => []

/-- The loader of the first step of the CSS loader chain. -/
def Config.cssChainHead (cfg : Config) : Option Loader :=
  cfg.cssLoaderChain.head?.map LoaderEntry.loader

/-- The `sourceMap` option a loader step carries, if any. -/
def LoaderEntry.sourceMapOption (s : LoaderEntry) : Option Bool :=
  match s.options with
  | LoaderOptions.sourceMapOptions b => some b
  | _ => none

/-- `true` when the step either carries no source-map option or carries
one equal to `b`. -/
def LoaderEntry.sourceMapIs (s : LoaderEntry) (b : Bool) : Bool :=
  match s.sourceMapOption with
  | some v => v == b
  | none => true

/-- All loader steps of a module block, in rule order. -/
def allLoaderSteps (m : WebpackModule) : List LoaderEntry :=
  m.rules.flatMap Rule.use

/-- Whether a plugin is the CSS-extraction plugin instance. -/
def Plugin.isMiniCssExtract : Plugin → Bool
  | Plugin.miniCssExtractPlugin _ => true
  | _ => false

/-- Whether a plugin is the CSS-purging plugin instance. -/
def Plugin.isPurgecss : Plugin → Bool
  | Plugin.purgecssPlugin _ => true
  | _ => false

/-- Whether a plugin is the CSS-minimizer plugin instance. -/
def Plugin.isOptimizeCSSAssets : Plugin → Bool
  | Plugin.optimizeCSSAssetsPlugin => true
  | _ => false

/-- A concrete module-load context used for closed evaluations. -/
def sampleCtx : Ctx :=
  { wdsHost := some "localhost",
    wdsPort := some "8080",
    dirname := "/repo",
    globPaths := ["/repo/src/index.js", "/repo/src/templates/index.html"] }

/-- A concrete context with both dev-server environment variables absent. -/
def bareCtx : Ctx :=
  { wdsHost := none,
    wdsPort := none,
    dirname := "/repo",
    globPaths := [] }

/-! Theorems. -/

/-- C1: for mode `production`, the returned configuration has `devServer`
equal to the empty object, `optimization.minimizer` with exactly one
entry, and the CSS loader chain's first step is the CSS-extraction loader
(`MiniCssExtractPlugin.loader`), not the style-injection loader. -/
theorem production_config_shape (ctx : Ctx) {A : Type} (argv : A) :
    (moduleExports ctx "production" argv).devServer = DevServer.emptyObj ∧
    (moduleExports ctx "production" argv).optimization.minimizerEntries.length = 1 ∧
    (moduleExports ctx "production" argv).cssChainHead =
      some Loader.miniCssExtractPluginLoader ∧
    (moduleExports ctx "production" argv).cssChainHead ≠ some Loader.styleLoader := by
  refine ⟨rfl, rfl, rfl, ?_⟩
  intro h
  exact Loader.noConfusion (Option.some.inj h)

/-- C2: for mode `development`, the returned configuration has
`optimization` equal to the empty object, `devServer.historyApiFallback`
true, and the CSS loader chain's first step is `style-loader`. -/
theorem development_config_shape (ctx : Ctx) {A : Type} (argv : A) :
    (moduleExports ctx "development" argv).optimization = Optimization.emptyObj ∧
    (moduleExports ctx "development" argv).devServer.historyApiFallbackValue =
      some true ∧
    (moduleExports ctx "development" argv).cssChainHead = some Loader.styleLoader := by
  exact ⟨rfl, rfl, rfl⟩

/-- C3: in the returned module rules, some loader step carries a
source-map option, and for mode `production` every such step has it set
to `false`, while for mode `development` every such step has it set to
`true`. -/
theorem source_map_flags (ctx : Ctx) {A : Type} (argv : A) :
    (allLoaderSteps (moduleExports ctx "production" argv).module).any
      (fun s => s.sourceMapOption.isSome) = true ∧
    (allLoaderSteps (moduleExports ctx "production" argv).module).all
      (fun s => s.sourceMapIs false) = true ∧
    (allLoaderSteps (moduleExports ctx "development" argv).module).any
      (fun s => s.sourceMapOption.isSome) = true ∧
    (allLoaderSteps (moduleExports ctx "development" argv).module).all
      (fun s => s.sourceMapIs true) = true := by
  exact ⟨rfl, rfl, rfl, rfl⟩

/-- C4: when `WDS_HOST` and `WDS_PORT` are absent and the mode is
`development`, the resolver still returns (it is total), and the
returned dev-server block has `host` undefined, `port` undefined and
`open` false: the absent values are passed through silently. -/
theorem env_vars_absent_passed_through (ctx : Ctx) (hH : ctx.wdsHost = none)
    (hP : ctx.wdsPort = none) {A : Type} (argv : A) :
    (moduleExports ctx "development" argv).devServer.hostValue = some none ∧
    (moduleExports ctx "development" argv).devServer.portValue = some none ∧
    (moduleExports ctx "development" argv).devServer.openValue = some false := by
  refine ⟨?_, ?_, rfl⟩
  · show some ctx.wdsHost = some none
    rw [hH]
  · show some ctx.wdsPort = some none
    rw [hP]

/-- Witness for C4: the resolver evaluated at a concrete context with both
environment variables absent. -/
theorem env_vars_absent_passed_through_witness :
    (moduleExports bareCtx "development" ()).devServer.hostValue = some none ∧
    (moduleExports bareCtx "development" ()).devServer.portValue = some none ∧
    (moduleExports bareCtx "development" ()).devServer.openValue = some false :=
  env_vars_absent_passed_through bareCtx rfl rfl ()

/-- C5: every mode other than `production` is treated identically to
`development` in every conditional branch: the module block (hence the
CSS loader head and the source-map flags), the optimization block, the
devServer block and the devtool value all equal the development
selections. -/
theorem unrecognized_mode_like_development (ctx : Ctx) {A : Type} (argv : A)
    (mode : String) (h : mode ≠ "production") :
    (moduleExports ctx mode argv).cssChainHead =
      (moduleExports ctx "development" argv).cssChainHead ∧
    (moduleExports ctx mode argv).module =
      (moduleExports ctx "development" argv).module ∧
    (moduleExports ctx mode argv).optimization =
      (moduleExports ctx "development" argv).optimization ∧
    (moduleExports ctx mode argv).devServer =
      (moduleExports ctx "development" argv).devServer ∧
    (moduleExports ctx mode argv).devtool =
      (moduleExports ctx "development" argv).devtool := by
  have hb : isProduction mode = false := by
    simp [isProduction, h]
  refine ⟨?_, ?_, ?_, ?_, ?_⟩ <;>
    simp [moduleExports, webpackModule, Config.cssChainHead, Config.cssLoaderChain, hb,
      isProduction, h]

/-- Witness for C5: the unrecognized mode `staging` evaluated concretely. -/
theorem unrecognized_mode_like_development_witness :
    (moduleExports sampleCtx "staging" ()).cssChainHead =
      (moduleExports sampleCtx "development" ()).cssChainHead ∧
    (moduleExports sampleCtx "staging" ()).module =
      (moduleExports sampleCtx "development" ()).module ∧
    (moduleExports sampleCtx "staging" ()).optimization =
      (moduleExports sampleCtx "development" ()).optimization ∧
    (moduleExports sampleCtx "staging" ()).devServer =
      (moduleExports sampleCtx "development" ()).devServer ∧
    (moduleExports sampleCtx "staging" ()).devtool =
      (moduleExports sampleCtx "development" ()).devtool :=
  unrecognized_mode_like_development sampleCtx () "staging" (by decide)

/-- C6: for every mode, exactly one of the `optimization` and `devServer`
blocks is populated: in production the optimization block is non-empty
and the devServer block is the empty object; otherwise the optimization
block is the empty object and the devServer block is populated. -/
theorem exactly_one_block_populated (ctx : Ctx) {A : Type} (argv : A)
    (mode : String) :
    (moduleExports ctx mode argv).optimization.isEmptyObj ≠
      (moduleExports ctx mode argv).devServer.isEmptyObj ∧
    (isProduction mode = true →
      (moduleExports ctx mode argv).optimization.isEmptyObj = false ∧
      (moduleExports ctx mode argv).devServer = DevServer.emptyObj) ∧
    (isProduction mode = false →
      (moduleExports ctx mode argv).optimization = Optimization.emptyObj ∧
      (moduleExports ctx mode argv).devServer.isEmptyObj = false) := by
  cases hb : isProduction mode <;>
    simp [moduleExports, hb, Optimization.isEmptyObj, DevServer.isEmptyObj, optimize]

/-- Witness for C6: both branch hypotheses discharged at concrete modes. -/
theorem exactly_one_block_populated_witness :
    ((moduleExports sampleCtx "production" ()).optimization.isEmptyObj = false ∧
     (moduleExports sampleCtx "production" ()).devServer = DevServer.emptyObj) ∧
    ((moduleExports sampleCtx "development" ()).optimization = Optimization.emptyObj ∧
     (moduleExports sampleCtx "development" ()).devServer.isEmptyObj = false) :=
  ⟨(exactly_one_block_populated sampleCtx () "production").2.1 rfl,
   (exactly_one_block_populated sampleCtx () "development").2.2 rfl⟩

/-- C7: for every mode, the plugins list of the returned configuration
contains both the CSS-extraction plugin and the CSS-purging plugin, and
the extraction plugin occurs at an earlier position. -/
theorem extract_plugin_before_purge_plugin (ctx : Ctx) {A : Type} (argv : A)
    (mode : String) :
    (moduleExports ctx mode argv).plugins.any Plugin.isMiniCssExtract = true ∧
    (moduleExports ctx mode argv).plugins.any Plugin.isPurgecss = true ∧
    (moduleExports ctx mode argv).plugins.findIdx Plugin.isMiniCssExtract <
      (moduleExports ctx mode argv).plugins.findIdx Plugin.isPurgecss := by
  refine ⟨rfl, rfl, ?_⟩
  show (1 : Nat) < 2
  exact Nat.one_lt_two

/-- C8: the devtool value is the boolean `false` for mode `production`
and the (misspelled) string `cheal-module-eval-source-map` for every
other mode, including `development`. -/
theorem devtool_by_mode (ctx : Ctx) {A : Type} (argv : A) (mode : String) :
    (mode = "production" →
      (moduleExports ctx mode argv).devtool = Devtool.boolVal false) ∧
    (mode ≠ "production" →
      (moduleExports ctx mode argv).devtool =
        Devtool.strVal "cheal-module-eval-source-map") := by
  constructor
  · intro h
    subst h
    rfl
  · intro h
    have hb : isProduction mode = false := by
      simp [isProduction, h]
    simp [moduleExports, hb]

/-- Witness for C8: both branches discharged at concrete modes. -/
theorem devtool_by_mode_witness :
    (moduleExports sampleCtx "production" ()).devtool = Devtool.boolVal false ∧
    (moduleExports sampleCtx "staging" ()).devtool =
      Devtool.strVal "cheal-module-eval-source-map" :=
  ⟨(devtool_by_mode sampleCtx () "production").1 rfl,
   (devtool_by_mode sampleCtx () "staging").2 (by decide)⟩

/-- C9: for a fixed mode and fixed module-load context, the `argv`
argument has no influence on the returned configuration: any two argv
values (even of different types) yield equal configurations. -/
theorem argv_has_no_influence (ctx : Ctx) (mode : String) {A B : Type}
    (argv1 : A) (argv2 : B) :
    moduleExports ctx mode argv1 = moduleExports ctx mode argv2 := rfl

/-- Counterexample for C10 as stated: in the development configuration the
CSS-minimizer plugin (`OptimizeCSSAssetsPlugin`) is not present — it is
absent from the plugins list and from the (empty) optimization block. -/
theorem css_minimizer_absent_in_development :
    (moduleExports sampleCtx "development" ()).plugins.any
      Plugin.isOptimizeCSSAssets = false ∧
    (moduleExports sampleCtx "development" ()).optimization.minimizerEntries = [] := by
  exact ⟨rfl, rfl⟩

/-- C10 (amended): for every env value, the `mode` field of the returned
configuration equals the env argument verbatim, and the plugins list is
the same three-element sequence (HtmlWebpackPlugin, MiniCssExtractPlugin,
PurgecssPlugin) in every mode, so the purge and CSS-extraction plugins
are present even in development; the CSS-minimizer plugin appears only in
production's `optimization.minimizer`, never in the plugins list. -/
theorem mode_verbatim_and_plugins_fixed (ctx : Ctx) {A : Type} (argv : A)
    (mode : String) :
    (moduleExports ctx mode argv).mode = mode ∧
    (moduleExports ctx mode argv).plugins =
      [Plugin.htmlWebpackPlugin "Webpack Demo" "src/templates/index.html",
       Plugin.miniCssExtractPlugin "[name].css",
       Plugin.purgecssPlugin ctx.globPaths] ∧
    (moduleExports ctx mode argv).plugins.any Plugin.isOptimizeCSSAssets = false ∧
    (isProduction mode = false →
      (moduleExports ctx mode argv).optimization.minimizerEntries = []) := by
  refine ⟨rfl, rfl, rfl, ?_⟩
  intro hb
  simp [moduleExports, hb, Optimization.minimizerEntries]

/-- Witness for C10 (amended): the implication branch discharged at the
concrete mode `development`. -/
theorem mode_verbatim_and_plugins_fixed_witness :
    (moduleExports sampleCtx "development" ()).mode = "development" ∧
    (moduleExports sampleCtx "development" ()).optimization.minimizerEntries = [] :=
  ⟨(mode_verbatim_and_plugins_fixed sampleCtx () "development").1,
   (mode_verbatim_and_plugins_fixed sampleCtx () "development").2.2.2 rfl⟩

end WebpackConfig
